import Mathlib

/-!
Shallow embedding of `src/lac/vector.py` (module `lac.vector` of the
`linear-algebra` repository) and proofs about it.

Modelling conventions:
* Python float components are modelled as real numbers; `math.fsum`
  (exactly rounded summation) is modelled as the exact real sum.
* Fallible Python functions (ones that can raise) return `Except Err _`;
  the `Err` constructors record which Python exception the source raises.
* Accessing an attribute that the `Vector` class does not define raises
  `AttributeError` in Python; such accesses are embedded as functions that
  return `Except.error (.attributeError name)`.
* The `lac` package constant `PRECISION` lives in `lac/__init__.py`, which
  is not part of the sources here; it is modelled from the spec (see the
  doc comment on `PRECISION`).
-/

open Classical

namespace LAC

/-- Python exceptions raised by the code of `lac/vector.py`.
`dimensionMismatch d1 d2` is the `ValueError` raised by `add`/`dot`
("Vectors must have the same dimension, got d1 and d2");
`notThreeDimensional d` is the `ValueError` the guard of `cross` would
raise ("Expected 3-dimentional vector, got a d-dimentional"). -/
inductive Err where
  | dimensionMismatch (d1 d2 : ℕ)
  | notThreeDimensional (d : ℕ)
  | typeError
  | zeroDivisionError
  | indexError
  | attributeError (attr : String)
deriving DecidableEq

/-- A Python value passed as the scalar argument of `scale`: either a
`numbers.Number` (modelled as a real) or any non-numeric object. -/
inductive PyScalar where
  | num (x : ℝ)
  | nonNumeric

/-- The `Vector` class of `lac/vector.py`: its state is the array
`self._components` (an `array('d', components)`, an ordered sequence of
floats).  The lazily cached `self._norm` field is modelled separately by
`VectorState` below; every vector built by the module's own operations is
freshly constructed by `Vector.__init__`, which sets `_norm = None`, so for
the pure operations the cache is invisible. -/
structure Vector where
  components : List ℝ

/-- The `dim` property: `len(self.components)`. -/
def Vector.dim (v : Vector) : ℕ := v.components.length

/-- The inner sum of `dot`: `math.fsum(c1 * c2 for c1, c2 in zip(l1, l2))`.
Python's `zip` truncates to the shorter argument, as `List.zip` does. -/
def listDot (l1 l2 : List ℝ) : ℝ := ((l1.zip l2).map fun p => p.1 * p.2).sum

/-- `dot(v1, v2)`: raises `ValueError` when the dimensions differ, else
returns the sum of componentwise products. -/
def dot (v1 v2 : Vector) : Except Err ℝ :=
  if v1.dim ≠ v2.dim then .error (.dimensionMismatch v1.dim v2.dim)
  else .ok (listDot v1.components v2.components)

/-- The `norm` property, `math.sqrt(dot(self, self))`.  The dimension guard
of `dot` passes trivially for the pair `(self, self)`, so the value is
`sqrt` of `listDot` of the components.  (The caching behaviour of the
property is modelled by `normRead` on `VectorState` below.) -/
noncomputable def Vector.norm (v : Vector) : ℝ :=
  Real.sqrt (listDot v.components v.components)

/-- `scale(v, k)`: raises `TypeError` when `k` is not a `numbers.Number`,
else returns `Vector(k * c for c in v)`. -/
def scale (v : Vector) (k : PyScalar) : Except Err Vector :=
  match k with
  | .num x => .ok ⟨v.components.map fun c => x * c⟩
  | .nonNumeric => .error .typeError

/-- `add(v1, v2)`: raises `ValueError` when the dimensions differ, else
returns `Vector(c1 + c2 for c1, c2 in zip(v1, v2))`.  The guard runs
before the sum is built. -/
def add (v1 v2 : Vector) : Except Err Vector :=
  if v1.dim ≠ v2.dim then .error (.dimensionMismatch v1.dim v2.dim)
  else .ok ⟨List.zipWith (· + ·) v1.components v2.components⟩

/-- `Vector.__getitem__` with an integer argument: `self.components[i]`,
with the indexing semantics of a Python `array('d')`: indices in
`[0, dim)` address components directly, indices in `[-dim, 0)` address
`components[dim + i]`, and every other integer raises `IndexError`. -/
def getItem (v : Vector) (i : ℤ) : Except Err ℝ :=
  if 0 ≤ i ∧ i < (v.dim : ℤ) then .ok (v.components.getD i.toNat 0)
  else if -(v.dim : ℤ) ≤ i ∧ i < 0 then .ok (v.components.getD (i + v.dim).toNat 0)
  else .error .indexError

/-- The attribute access `v.ndim` performed by `cross`.  The `Vector` class
defines `components`, `dim` and `norm` but no attribute named `ndim`, so
this access raises `AttributeError` on every instance. -/
def ndimAttr (_v : Vector) : Except Err ℕ := .error (.attributeError "ndim")

/-- `cross(v1, v2)` as written in the source: the guard loop reads `v.ndim`
for `v` in `[v1, v2]` (an attribute that does not exist), then the three
components are computed; the source's `c2` line is
`v1[2] * v2[0] - v1[2] * v2[0]` (subtracting a term from itself), kept
verbatim here. -/
def cross (v1 v2 : Vector) : Except Err Vector := do
  let n1 ← ndimAttr v1
  if n1 ≠ 3 then throw (.notThreeDimensional n1)
  let n2 ← ndimAttr v2
  if n2 ≠ 3 then throw (.notThreeDimensional n2)
  let c1 := (← getItem v1 1) * (← getItem v2 2) - (← getItem v1 2) * (← getItem v2 1)
  let c2 := (← getItem v1 2) * (← getItem v2 0) - (← getItem v1 2) * (← getItem v2 0)
  let c3 := (← getItem v1 0) * (← getItem v2 1) - (← getItem v1 1) * (← getItem v2 0)
  pure ⟨[c1, c2, c3]⟩

/-- The method call `d.buil_unitary()` performed by `project`.  The
`Vector` class defines no method of that name (the unit-vector builder is
the module-level function `build_unit_vector`), so the attribute lookup
raises `AttributeError` on every instance. -/
def builUnitaryAttr (_d : Vector) : Except Err Vector :=
  .error (.attributeError "buil_unitary")

/-- `project(v, d)` as written in the source: `dot(v, d.buil_unitary())`. -/
def project (v d : Vector) : Except Err ℝ := do
  let u ← builUnitaryAttr d
  dot v u

/-- Python float division `a / b`: raises `ZeroDivisionError` when `b` is
zero. -/
noncomputable def pydiv (a b : ℝ) : Except Err ℝ :=
  if b = 0 then .error .zeroDivisionError else .ok (a / b)

/-- `build_unit_vector(v)`: `scale(v, 1 / v.norm)`; the division is
evaluated first, so a zero norm raises `ZeroDivisionError` before `scale`
runs. -/
noncomputable def build_unit_vector (v : Vector) : Except Err Vector := do
  let k ← pydiv 1 v.norm
  scale v (.num k)

/-- `Vector.make_unitary(components)`: `build_unit_vector(cls(components))`. -/
noncomputable def make_unitary (components : List ℝ) : Except Err Vector :=
  build_unit_vector ⟨components⟩

end LAC

namespace LAC

/-- Modelled from the spec: the equality precision constant `PRECISION` is
imported from `lac/__init__.py`, a file that is not among the sources; the
spec describes it as "a single global configuration value (an integer
decimal-digit count) controlling the rounding precision used by
tolerance-based equality".  We fix the representative value 3 (the digit
count the module also uses for its repr); the theorems below that involve
rounding are stated for an arbitrary digit count wherever the claim allows
it. -/
def PRECISION : ℤ := 3

/-- Round-half-to-even on a real number, the rounding mode of Python's
built-in `round`.  Away from exact half-integers it agrees with `round`
(round half up); at a half-integer it picks the even neighbour, which is
twice the rounding of the half. -/
noncomputable def roundHalfEven (x : ℝ) : ℤ :=
  if Int.fract x = 1 / 2 then 2 * round (x / 2) else round x

/-- Python's `round(x, ndigits)`: scale by `10 ^ ndigits`, round half to
even, and scale back. -/
noncomputable def roundTo (ndigits : ℤ) (x : ℝ) : ℝ :=
  ((roundHalfEven (x * (10 : ℝ) ^ ndigits) : ℤ) : ℝ) / (10 : ℝ) ^ ndigits

/-- `almost_equal(v1, v2, ndigits)` between two Vectors:
`all(round(c1, ndigits) == round(c2, ndigits) for c1, c2 in zip(v1, v2))
and v1.dim == v2.dim`.  Both conjuncts are total Booleans here, so the
Python short-circuit of `and` is invisible and the function is embedded as
the conjunction. -/
def almost_equal (v1 v2 : Vector) (ndigits : ℤ) : Prop :=
  (∀ p ∈ v1.components.zip v2.components,
      roundTo ndigits p.1 = roundTo ndigits p.2) ∧
    v1.dim = v2.dim

/-- A Python object appearing as the right operand of `Vector.__eq__`:
either another `Vector`, or a plain list of numbers (iterable, but without
a `dim` attribute). -/
inductive PyObj where
  | vec (v : Vector)
  | numList (l : List ℝ)

/-- Iterating the operand, as `zip` does: a `Vector` yields its components
in index order, a list yields its elements. -/
def PyObj.iterOf : PyObj → List ℝ
  | .vec v => v.components
  | .numList l => l

/-- The attribute access `other.dim`: defined on `Vector`, an
`AttributeError` on a plain list. -/
def PyObj.dimAttr : PyObj → Except Err ℕ
  | .vec v => .ok v.dim
  | .numList _ => .error (.attributeError "dim")

/-- `almost_equal(v1, other, ndigits)` with an arbitrary iterable right
operand, as `Vector.__eq__` calls it.  Python's `and` short-circuits: when
some zipped pair differs after rounding, `all(...)` is `False` and the
expression returns `False` without ever reading `other.dim`; only when
every zipped pair agrees (in particular vacuously) is `other.dim` read,
which raises `AttributeError` for a non-`Vector` operand. -/
noncomputable def almostEqualObj (v1 : Vector) (o : PyObj) (ndigits : ℤ) :
    Except Err Bool :=
  if ∀ p ∈ v1.components.zip o.iterOf,
      roundTo ndigits p.1 = roundTo ndigits p.2 then
    o.dimAttr.map fun d2 => v1.dim == d2
  else .ok false

/-- A `Vector` instance together with its mutable `_norm` cache field;
`Vector.__init__` sets `self._norm = None`. -/
structure VectorState where
  components : List ℝ
  normCache : Option ℝ

/-- `Vector.__init__(components)`: stores the components and sets the norm
cache to `None`. -/
def VectorState.init (components : List ℝ) : VectorState := ⟨components, none⟩

/-- One read of the `norm` property: when the cache is empty the value
`math.sqrt(dot(self, self))` is computed and stored, otherwise the cached
value is returned unchanged.  Returns the value and the instance state
after the read. -/
noncomputable def normRead (s : VectorState) : ℝ × VectorState :=
  match s.normCache with
  | some n => (n, s)
  | none =>
      let n := Real.sqrt (listDot s.components s.components)
      (n, ⟨s.components, some n⟩)

end LAC

namespace LAC

/-! ### Helper lemmas about the componentwise sum of products -/

theorem listDot_nil_left (l : List ℝ) : listDot [] l = 0 := by
  simp [listDot]

theorem listDot_nil_right (l : List ℝ) : listDot l [] = 0 := by
  simp [listDot]

theorem listDot_cons (a : ℝ) (l1 : List ℝ) (b : ℝ) (l2 : List ℝ) :
    listDot (a :: l1) (b :: l2) = a * b + listDot l1 l2 := by
  simp [listDot]

theorem listDot_comm (l1 l2 : List ℝ) : listDot l1 l2 = listDot l2 l1 := by
  induction l1 generalizing l2 with
  | nil => cases l2 <;> simp [listDot]
  | cons a t ih =>
    cases l2 with
    | nil => simp [listDot]
    | cons b t2 => rw [listDot_cons, listDot_cons, ih, mul_comm]

theorem listDot_self (l : List ℝ) :
    listDot l l = (l.map fun c => c * c).sum := by
  induction l with
  | nil => simp [listDot]
  | cons a t ih => rw [listDot_cons, ih]; simp

theorem listDot_self_nonneg (l : List ℝ) : 0 ≤ listDot l l := by
  rw [listDot_self]
  refine List.sum_nonneg fun x hx => ?_
  obtain ⟨c, -, rfl⟩ := List.mem_map.1 hx
  exact mul_self_nonneg c

theorem listDot_map_mul (k : ℝ) (l : List ℝ) :
    listDot (l.map fun c => k * c) (l.map fun c => k * c) =
      k ^ 2 * listDot l l := by
  induction l with
  | nil => simp [listDot]
  | cons a t ih =>
    simp only [List.map_cons, listDot_cons, ih]
    ring

/-! ### C1: the cross product -/

/-- Claim C1: the claim says `cross` computes the standard 3D cross product
for 3-dimensional operands and raises DimensionMismatch otherwise.  In the
code the guard reads `v.ndim`, an attribute the `Vector` class does not
define, so every call — whatever the dimensions — raises `AttributeError`
before any dimension check or arithmetic. -/
theorem cross_always_attributeError (v1 v2 : Vector) :
    cross v1 v2 = .error (.attributeError "ndim") := rfl

/-! ### C2: projection -/

/-- Claim C2: the claim says `project(v, d)` returns `dot(v, normalize(d))`
for `d` of nonzero norm.  In the code the body calls `d.buil_unitary()`, a
method the `Vector` class does not define, so every call — whatever the
operands — raises `AttributeError`. -/
theorem project_always_attributeError (v d : Vector) :
    project v d = .error (.attributeError "buil_unitary") := rfl

/-! ### C3: positional indexing -/

/-- Claim C3 is refuted at a concrete input: indexing `Vector([1, 2])` at
`-1` succeeds with the last component `2` even though `-1` lies outside
`[0, dim)`, where the claim demands an IndexOutOfBounds failure. -/
theorem getItem_negative_index_counterexample :
    getItem ⟨[1, 2]⟩ (-1) = .ok 2 ∧
      ¬(0 ≤ (-1 : ℤ) ∧ (-1 : ℤ) < (Vector.dim ⟨[1, 2]⟩ : ℤ)) := by
  constructor
  · rw [getItem, if_neg (by decide), if_pos (by decide)]
    norm_num [Vector.dim]
  · decide

/-- Claim C3 (amended): indexing succeeds exactly on `[-dim, dim)`: an
index in `[0, dim)` returns the component at that position, an index in
`[-dim, 0)` returns the component at `dim + i` (Python's
count-from-the-end indexing), and every other integer index fails with an
IndexError. -/
theorem getItem_spec (v : Vector) (i : ℤ) :
    (0 ≤ i → i < (v.dim : ℤ) →
      getItem v i = .ok (v.components.getD i.toNat 0)) ∧
    (-(v.dim : ℤ) ≤ i → i < 0 →
      getItem v i = .ok (v.components.getD (i + v.dim).toNat 0)) ∧
    ((i < -(v.dim : ℤ) ∨ (v.dim : ℤ) ≤ i) →
      getItem v i = .error .indexError) := by
  refine ⟨fun h1 h2 => ?_, fun h1 h2 => ?_, fun h => ?_⟩
  · rw [getItem, if_pos ⟨h1, h2⟩]
  · rw [getItem, if_neg (by omega), if_pos ⟨h1, h2⟩]
  · rw [getItem, if_neg (by omega), if_neg (by omega)]

end LAC

namespace LAC

/-! ### C4: scaling -/

/-- Claim C4: `scale(v, k)` multiplies every component by `k` when `k` is
numeric, and raises the TypeError-kind error exactly when `k` is not a
numeric value. -/
theorem scale_spec (v : Vector) (k : PyScalar) :
    (∀ x, k = .num x → scale v k = .ok ⟨v.components.map fun c => x * c⟩) ∧
    (scale v k = .error .typeError ↔ k = .nonNumeric) := by
  cases k <;> simp [scale]

/-! ### Helper lemmas about rounding -/

theorem roundHalfEven_intCast (m : ℤ) : roundHalfEven (m : ℝ) = m := by
  rw [roundHalfEven, if_neg, round_intCast]
  rw [Int.fract_intCast]
  norm_num

theorem roundTo_eq_int (nd : ℤ) (x : ℝ) (m : ℤ)
    (h : x * (10 : ℝ) ^ nd = (m : ℝ)) :
    roundTo nd x = (m : ℝ) / (10 : ℝ) ^ nd := by
  rw [roundTo, h, roundHalfEven_intCast]

theorem roundTo_zero (nd : ℤ) : roundTo nd 0 = 0 := by
  rw [roundTo_eq_int nd 0 0 (by norm_num)]
  norm_num

theorem roundTo_small (nd : ℤ) :
    roundTo nd ((10 : ℝ) ^ (-nd) / 10) = 0 := by
  have hmul : ((10 : ℝ) ^ (-nd) / 10) * (10 : ℝ) ^ nd = 1 / 10 := by
    rw [div_mul_eq_mul_div, mul_comm, ← zpow_add₀ (by norm_num : (10 : ℝ) ≠ 0)]
    norm_num
  have hfract : Int.fract (1 / 10 : ℝ) = 1 / 10 :=
    Int.fract_eq_self.2 (by norm_num)
  have hround : round (1 / 10 : ℝ) = 0 := by
    rw [round_eq]
    have hfl : ⌊(1 / 10 + 1 / 2 : ℝ)⌋ = 0 :=
      Int.floor_eq_zero_iff.2 (by constructor <;> norm_num)
    exact hfl
  rw [roundTo, hmul, roundHalfEven, hfract, if_neg (by norm_num), hround]
  norm_num

/-! ### C5: tolerance equality -/

/-- Claim C5: `almost_equal` (the function behind `==`) holds iff the
dimensions agree and every corresponding pair of components, each rounded
to the configured decimal precision, is equal (stated for an arbitrary
digit count, covering whatever value `PRECISION` has); and it is not raw
componentwise equality: a vector with a single small nonzero component is
`almost_equal` to the zero vector even though the raw components differ. -/
theorem almost_equal_spec (v1 v2 : Vector) (nd : ℤ) :
    (almost_equal v1 v2 nd ↔
      v1.dim = v2.dim ∧
        ∀ (i : ℕ) (h1 : i < v1.components.length)
          (h2 : i < v2.components.length),
          roundTo nd (v1.components.get ⟨i, h1⟩) =
            roundTo nd (v2.components.get ⟨i, h2⟩)) ∧
    ∃ w : Vector, w.components ≠ [0] ∧ almost_equal ⟨[0]⟩ w nd := by
  constructor
  · constructor
    · rintro ⟨hall, hdim⟩
      refine ⟨hdim, ?_⟩
      have hf : List.Forall₂ (fun a b => roundTo nd a = roundTo nd b)
          v1.components v2.components :=
        List.forall₂_iff_zip.2 ⟨hdim, fun hp => hall _ hp⟩
      exact fun i h1 h2 => (List.forall₂_iff_get.1 hf).2 i h1 h2
    · rintro ⟨hdim, hget⟩
      have hf : List.Forall₂ (fun a b => roundTo nd a = roundTo nd b)
          v1.components v2.components :=
        List.forall₂_iff_get.2 ⟨hdim, hget⟩
      exact ⟨fun p hp => (List.forall₂_iff_zip.1 hf).2 hp, hdim⟩
  · refine ⟨⟨[(10 : ℝ) ^ (-nd) / 10]⟩, ?_, ?_, rfl⟩
    · have hx : (0 : ℝ) < (10 : ℝ) ^ (-nd) / 10 := by positivity
      simp only [ne_eq, List.cons.injEq, and_true]
      exact hx.ne'
    · intro p hp
      simp only [List.zip_cons_cons, List.zip_nil_right, List.mem_singleton] at hp
      subst hp
      rw [roundTo_zero, roundTo_small]

/-! ### C6: normalization -/

/-- Claim C6: for a vector of nonzero norm, `build_unit_vector` (the
`normalize` of the spec) returns `scale(v, 1 / v.norm)` and the result has
norm exactly 1 (hence approximately 1 within any tolerance); for a vector
of zero norm it — and `make_unitary` on the same components — raises
`ZeroDivisionError`. -/
theorem normalize_spec (v : Vector) :
    (v.norm ≠ 0 →
      build_unit_vector v = scale v (.num (1 / v.norm)) ∧
      ∃ w, build_unit_vector v = .ok w ∧ w.norm = 1) ∧
    (v.norm = 0 →
      build_unit_vector v = .error .zeroDivisionError ∧
      make_unitary v.components = .error .zeroDivisionError) := by
  constructor
  · intro h
    have hb : build_unit_vector v = scale v (.num (1 / v.norm)) := by
      unfold build_unit_vector pydiv
      rw [if_neg h]
      rfl
    refine ⟨hb, ⟨v.components.map fun c => (1 / v.norm) * c⟩, by rw [hb]; rfl, ?_⟩
    have hS0 : 0 ≤ listDot v.components v.components := listDot_self_nonneg _
    have hS : listDot v.components v.components ≠ 0 := by
      intro h0
      exact h (by rw [Vector.norm, h0, Real.sqrt_zero])
    show Real.sqrt (listDot (v.components.map fun c => (1 / v.norm) * c)
        (v.components.map fun c => (1 / v.norm) * c)) = 1
    rw [listDot_map_mul, Vector.norm, div_pow, one_pow, Real.sq_sqrt hS0,
      one_div, inv_mul_cancel₀ hS, Real.sqrt_one]
  · intro h
    have hz : build_unit_vector v = .error .zeroDivisionError := by
      unfold build_unit_vector pydiv
      rw [if_pos h]
      rfl
    exact ⟨hz, hz⟩

/-! ### C7: symmetry of the dot product -/

/-- Claim C7: for vectors of equal dimension the dot product is exactly
symmetric. -/
theorem dot_comm (v1 v2 : Vector) (h : v1.dim = v2.dim) :
    dot v1 v2 = dot v2 v1 := by
  rw [dot, dot, if_neg (not_not_intro h), if_neg (not_not_intro h.symm),
    listDot_comm]

/-- Witness for C7 at a concrete input: `dot([1,2], [3,4])` equals
`dot([3,4], [1,2])`, and both evaluate to `11`. -/
theorem dot_comm_witness :
    dot ⟨[1, 2]⟩ ⟨[3, 4]⟩ = dot ⟨[3, 4]⟩ ⟨[1, 2]⟩ ∧
      dot ⟨[1, 2]⟩ ⟨[3, 4]⟩ = .ok 11 := by
  refine ⟨dot_comm _ _ rfl, ?_⟩
  simp only [dot, Vector.dim, List.length_cons, List.length_nil]
  norm_num [listDot, List.zip_cons_cons]

end LAC

namespace LAC

/-! ### C8: addition -/

theorem zipWith_add_getD (l1 l2 : List ℝ) (h : l1.length = l2.length)
    (i : ℕ) :
    (List.zipWith (· + ·) l1 l2).getD i 0 = l1.getD i 0 + l2.getD i 0 := by
  induction l1 generalizing l2 i with
  | nil =>
    cases l2 with
    | nil => simp
    | cons b t2 => simp at h
  | cons a t ih =>
    cases l2 with
    | nil => simp at h
    | cons b t2 =>
      cases i with
      | zero => simp
      | succ n => simpa using ih t2 (by simpa using h) n

/-- Claim C8: `add` returns the componentwise sum when the dimensions
agree, and raises the DimensionMismatch-kind error (with no partial result)
exactly when they differ; in particular `add(Vector([1,2]),
Vector([1,2,3]))` raises it. -/
theorem add_spec (v1 v2 : Vector) :
    (v1.dim = v2.dim →
      ∃ w, add v1 v2 = .ok w ∧ w.dim = v1.dim ∧
        ∀ i : ℕ, w.components.getD i 0 =
          v1.components.getD i 0 + v2.components.getD i 0) ∧
    (v1.dim ≠ v2.dim →
      add v1 v2 = .error (.dimensionMismatch v1.dim v2.dim)) ∧
    add ⟨[1, 2]⟩ ⟨[1, 2, 3]⟩ = .error (.dimensionMismatch 2 3) := by
  refine ⟨fun h => ?_, fun h => ?_, ?_⟩
  · refine ⟨⟨List.zipWith (· + ·) v1.components v2.components⟩, ?_, ?_, ?_⟩
    · rw [add, if_neg (not_not_intro h)]
    · show (List.zipWith _ v1.components v2.components).length = _
      rw [List.length_zipWith]
      have hl : v1.components.length = v2.components.length := h
      rw [Vector.dim, hl, Nat.min_self]
    · exact fun i => zipWith_add_getD _ _ h i
  · rw [add, if_pos h]
  · rw [add, if_pos (by decide)]
    rfl

/-! ### C9: the cached norm -/

/-- Claim C9: on a freshly constructed instance the first read of `norm`
computes the Euclidean length `sqrt(dot(self, self))` and stores it; a
second read returns the identical value and leaves the state unchanged;
and `Vector([3, 4]).norm` is exactly `5`. -/
theorem norm_cache_spec :
    (∀ l : List ℝ,
      (normRead (VectorState.init l)).1 = Real.sqrt (listDot l l) ∧
        normRead ((normRead (VectorState.init l)).2) =
          normRead (VectorState.init l)) ∧
    (normRead (VectorState.init [3, 4])).1 = 5 := by
  refine ⟨fun l => ⟨rfl, rfl⟩, ?_⟩
  show Real.sqrt (listDot [3, 4] [3, 4]) = 5
  have h25 : listDot [(3 : ℝ), 4] [3, 4] = 25 := by
    norm_num [listDot, List.zip_cons_cons]
  rw [h25, show (25 : ℝ) = 5 ^ 2 by norm_num,
    Real.sqrt_sq (by norm_num : (0 : ℝ) ≤ 5)]

/-! ### C10: equality against a non-Vector operand -/

/-- Claim C10 is refuted at a concrete input: `Vector([1]) == [2]`
evaluates to `False` with no error, because `all(...)` is already false on
the zipped pair `(1, 2)` and Python's `and` short-circuits before the
`.dim` attribute of the list is ever read. -/
theorem eq_nonvector_counterexample :
    almostEqualObj ⟨[1]⟩ (.numList [2]) PRECISION = .ok false := by
  rw [almostEqualObj, if_neg]
  intro hall
  have hp : (10 : ℝ) ^ PRECISION = 1000 := by
    rw [PRECISION]
    norm_num
  have h12 := hall ((1 : ℝ), (2 : ℝ))
    (by simp [PyObj.iterOf, List.zip_cons_cons])
  rw [roundTo_eq_int PRECISION 1 1000 (by rw [hp]; norm_num),
    roundTo_eq_int PRECISION 2 2000 (by rw [hp]; norm_num), hp] at h12
  norm_num at h12

/-- Claim C10 (amended): comparing a Vector with a plain list of numbers
returns `False` (no error) whenever some zipped component pair differs
after rounding, because the conjunction short-circuits; only when every
zipped pair (possibly vacuously) agrees after rounding does the comparison
go on to read `.dim` on the list and fail with an AttributeError. -/
theorem eq_nonvector_spec (v : Vector) (l : List ℝ) :
    ((∀ p ∈ v.components.zip l,
        roundTo PRECISION p.1 = roundTo PRECISION p.2) →
      almostEqualObj v (.numList l) PRECISION =
        .error (.attributeError "dim")) ∧
    (¬(∀ p ∈ v.components.zip l,
        roundTo PRECISION p.1 = roundTo PRECISION p.2) →
      almostEqualObj v (.numList l) PRECISION = .ok false) := by
  constructor
  · intro h
    simp only [almostEqualObj, PyObj.iterOf, PyObj.dimAttr]
    rw [if_pos h]
    rfl
  · intro h
    simp only [almostEqualObj, PyObj.iterOf]
    rw [if_neg h]

end LAC
